import Mathlib

/-!
Verification of the pg-queue library (src/lib.rs): a FIFO work queue backed by a
Postgres table, exposing `Queue::enqueue` and `Queue::process`.

The embedding models
- JSON payload values (serde_json::Value) as `Value`;
- the backing table as a list of `Row`s;
- the two SQL statements that appear verbatim in the source as token lists
  (`enqueueTokens`, `processTokens`), together with a recursive-descent parser
  for the relevant fragment of the PostgreSQL grammar and an executable engine
  for parsed statements.  This is the model of the external store: a statement
  is first parsed, and a statement the grammar rejects fails with a SQL error,
  exactly as Postgres rejects it at prepare time;
- the Rust-level functions `enqueue` and `process` as state-passing functions
  that also record a trace of store events (transaction begin, query execution,
  commit, rollback, handler invocation), with connection-level failures
  (begin/commit/rollback) supplied by a `StoreEnv` environment.
-/

set_option autoImplicit false

namespace PgQueue

/-- JSON values, modelling `serde_json::Value` (the payload type). -/
inductive Value where
  | null
  | bool (b : Bool)
  | num (n : Int)
  | str (s : String)
  | arr (xs : List Value)
  | obj (fields : List (String × Value))

/-- Row status.  The schema comment in the source says `status 0..2`; the doc
comments and the queries use Ready (0), InProgress, and the process outcomes
Done and Failed.  The numeric encoding is given by `statusCode`. -/
inductive Status where
  | ready
  | inProgress
  | done
  | failed
deriving DecidableEq, Repr

/-- Modelled from the spec: the backing table schema (the migrations directory
referenced by `sqlx::migrate!()` is not part of the repository).  Columns per
the source schema comment and spec section 6: `id` (auto-assigned integer),
`status` (small integer), `item` (JSON payload), `error` (nullable text). -/
structure Row where
  id : Nat
  status : Status
  item : Value
  error : Option String

/-- The queue table: the only persistent state. -/
abbrev DB := List Row

/-- Numeric encoding of `status` (the source filters on `status = 0`). -/
def statusCode : Status → Nat
  | Status.ready => 0
  | Status.inProgress => 1
  | Status.done => 2
  | Status.failed => 3

/-- Decode a numeric status literal. -/
def statusFromCode : Nat → Option Status
  | 0 => some Status.ready
  | 1 => some Status.inProgress
  | 2 => some Status.done
  | 3 => some Status.failed
  | _ => none

/-- True on rows in status Ready. -/
def isReady (r : Row) : Bool :=
  match r.status with
  | Status.ready => true
  | _ => false

/-! ### SQL statements as data

The two query strings of the source are transliterated token by token
(keywords case-normalized, as SQL lexing is case-insensitive). -/

/-- SQL tokens. -/
inductive Token where
  | kw (s : String)
  | ident (s : String)
  | strLit (s : String)
  | numLit (n : Nat)
  | lparen
  | rparen
  | comma
  | eq
  | star
  | semi
deriving DecidableEq, Repr

/-- The statement of `Queue::enqueue`, verbatim from the source:
`INSERT into queue VALUES (item) (item) RETURNING id`. -/
def enqueueTokens : List Token :=
  [Token.kw "INSERT", Token.kw "INTO", Token.ident "queue", Token.kw "VALUES",
   Token.lparen, Token.ident "item", Token.rparen,
   Token.lparen, Token.ident "item", Token.rparen,
   Token.kw "RETURNING", Token.ident "id"]

/-- The statement of `Queue::process`, verbatim from the source:
`UPDATE queue SET status = <in-progress literal> WHERE id =
 (SELECT id FROM queue ORDER BY id ASC WHERE status = 0
  FOR UPDATE SKIP LOCKED LIMIT 1) RETURNING *;`
Note the subquery places WHERE after ORDER BY, as the source does. -/
def processTokens : List Token :=
  [Token.kw "UPDATE", Token.ident "queue", Token.kw "SET",
   Token.ident "status", Token.eq, Token.strLit "in-progress",
   Token.kw "WHERE", Token.ident "id", Token.eq, Token.lparen,
   Token.kw "SELECT", Token.ident "id",
   Token.kw "FROM", Token.ident "queue",
   Token.kw "ORDER", Token.kw "BY", Token.ident "id", Token.kw "ASC",
   Token.kw "WHERE", Token.ident "status", Token.eq, Token.numLit 0,
   Token.kw "FOR", Token.kw "UPDATE", Token.kw "SKIP", Token.kw "LOCKED",
   Token.kw "LIMIT", Token.numLit 1,
   Token.rparen, Token.kw "RETURNING", Token.star, Token.semi]

/-! ### Abstract syntax of the supported SQL fragment -/

/-- Scalar expressions: a column reference, a string literal, or a numeric
literal. -/
inductive Expr where
  | col (name : String)
  | str (s : String)
  | num (n : Nat)
deriving DecidableEq, Repr

/-- A RETURNING / SELECT output list: `*` or a list of column names. -/
inductive RetList where
  | star
  | cols (names : List String)
deriving DecidableEq, Repr

/-- A parsed SELECT statement of the fragment
`SELECT ret FROM table [WHERE col = expr] [ORDER BY col [ASC|DESC]]
 [LIMIT n] [FOR UPDATE [SKIP LOCKED]]` (the last two in either order, as
PostgreSQL allows). -/
structure SelectQ where
  ret : RetList
  table : String
  whereCond : Option (String × Expr)
  orderBy : Option (String × Bool)
  limit : Option Nat
  locking : Option Bool
deriving DecidableEq, Repr

/-- Right-hand side of an UPDATE WHERE condition: a scalar or a scalar
subquery. -/
inductive WhereRhs where
  | scalar (e : Expr)
  | sub (q : SelectQ)
deriving DecidableEq, Repr

/-- A parsed UPDATE statement. -/
structure UpdateQ where
  table : String
  sets : List (String × Expr)
  whereCond : Option (String × WhereRhs)
  returning : Option RetList
deriving DecidableEq, Repr

/-- A parsed INSERT statement. -/
structure InsertQ where
  table : String
  targetCols : Option (List String)
  rowsVals : List (List Expr)
  returning : Option RetList
deriving DecidableEq, Repr

/-- A parsed statement. -/
inductive Stmt where
  | ins (q : InsertQ)
  | upd (q : UpdateQ)
deriving DecidableEq, Repr

/-! ### The parser (the store's grammar check)

Recursive descent over the token list, following the PostgreSQL grammar for
this fragment: in a SELECT, WHERE must precede ORDER BY; after ORDER BY only
the limit and locking clauses may appear.  After VALUES, parenthesized rows
must be separated by commas.  List parsers take explicit fuel. -/

/-- Parse one scalar expression. -/
def parseExpr : List Token → Option (Expr × List Token)
  | Token.ident c :: ts => some (Expr.col c, ts)
  | Token.strLit s :: ts => some (Expr.str s, ts)
  | Token.numLit n :: ts => some (Expr.num n, ts)
  | _ => none

/-- Parse a non-empty comma-separated expression list. -/
def parseExprListAux : Nat → List Token → Option (List Expr × List Token)
  | 0, _ => none
  | fuel + 1, ts =>
    match parseExpr ts with
    | none => none
    | some (e, ts1) =>
      match ts1 with
      | Token.comma :: ts2 =>
        match parseExprListAux fuel ts2 with
        | none => none
        | some (es, ts3) => some (e :: es, ts3)
      | _ => some ([e], ts1)

/-- Parse a non-empty comma-separated identifier list. -/
def parseIdentListAux : Nat → List Token → Option (List String × List Token)
  | 0, _ => none
  | fuel + 1, ts =>
    match ts with
    | Token.ident c :: ts1 =>
      match ts1 with
      | Token.comma :: ts2 =>
        match parseIdentListAux fuel ts2 with
        | none => none
        | some (cs, ts3) => some (c :: cs, ts3)
      | _ => some ([c], ts1)
    | _ => none

/-- Parse a parenthesized expression list. -/
def parseParenExprList (ts : List Token) : Option (List Expr × List Token) :=
  match ts with
  | Token.lparen :: ts1 =>
    match parseExprListAux ts1.length ts1 with
    | some (es, Token.rparen :: ts2) => some (es, ts2)
    | _ => none
  | _ => none

/-- Parse one or more comma-separated parenthesized rows (the VALUES lists). -/
def parseValuesAux : Nat → List Token → Option (List (List Expr) × List Token)
  | 0, _ => none
  | fuel + 1, ts =>
    match parseParenExprList ts with
    | none => none
    | some (vs, ts1) =>
      match ts1 with
      | Token.comma :: ts2 =>
        match parseValuesAux fuel ts2 with
        | none => none
        | some (rest, ts3) => some (vs :: rest, ts3)
      | _ => some ([vs], ts1)

/-- Parse an output list: `*` or column names. -/
def parseRetList (ts : List Token) : Option (RetList × List Token) :=
  match ts with
  | Token.star :: ts1 => some (RetList.star, ts1)
  | _ =>
    match parseIdentListAux ts.length ts with
    | some (cs, ts1) => some (RetList.cols cs, ts1)
    | none => none

/-- Parse a scalar condition `col = expr`. -/
def parseScalarCond : List Token → Option ((String × Expr) × List Token)
  | Token.ident c :: Token.eq :: ts =>
    match parseExpr ts with
    | some (e, ts1) => some ((c, e), ts1)
    | none => none
  | _ => none

/-- Parse an optional `WHERE col = expr` clause (scalar form, for SELECT). -/
def parseWhereScalarOpt (ts : List Token) :
    Option (Option (String × Expr) × List Token) :=
  match ts with
  | Token.kw "WHERE" :: ts1 =>
    match parseScalarCond ts1 with
    | some (c, ts2) => some (some c, ts2)
    | none => none
  | _ => some (none, ts)

/-- Parse an optional `ORDER BY col [ASC|DESC]` clause. -/
def parseOrderOpt (ts : List Token) :
    Option (Option (String × Bool) × List Token) :=
  match ts with
  | Token.kw "ORDER" :: Token.kw "BY" :: Token.ident c :: Token.kw "ASC" :: ts1 =>
    some (some (c, true), ts1)
  | Token.kw "ORDER" :: Token.kw "BY" :: Token.ident c :: Token.kw "DESC" :: ts1 =>
    some (some (c, false), ts1)
  | Token.kw "ORDER" :: Token.kw "BY" :: Token.ident c :: ts1 =>
    some (some (c, true), ts1)
  | Token.kw "ORDER" :: _ => none
  | _ => some (none, ts)

/-- Parse a `FOR UPDATE [SKIP LOCKED]` locking clause. -/
def parseForLocking : List Token → Option (Bool × List Token)
  | Token.kw "FOR" :: Token.kw "UPDATE" :: Token.kw "SKIP" :: Token.kw "LOCKED" :: ts =>
    some (true, ts)
  | Token.kw "FOR" :: Token.kw "UPDATE" :: ts => some (false, ts)
  | _ => none

/-- Parse a `LIMIT n` clause. -/
def parseLimit : List Token → Option (Nat × List Token)
  | Token.kw "LIMIT" :: Token.numLit n :: ts => some (n, ts)
  | _ => none

/-- Parse the optional limit and locking clauses, in either order (PostgreSQL
accepts both `LIMIT n FOR UPDATE` and `FOR UPDATE LIMIT n`). -/
def parseLockLimit (ts : List Token) :
    Option ((Option Nat × Option Bool) × List Token) :=
  match parseLimit ts with
  | some (n, ts1) =>
    match parseForLocking ts1 with
    | some (sl, ts2) => some ((some n, some sl), ts2)
    | none => some ((some n, none), ts1)
  | none =>
    match parseForLocking ts with
    | some (sl, ts1) =>
      match parseLimit ts1 with
      | some (n, ts2) => some ((some n, some sl), ts2)
      | none => some ((none, some sl), ts1)
    | none => some ((none, none), ts)

/-- Parse a SELECT statement of the fragment. -/
def parseSelect (ts : List Token) : Option (SelectQ × List Token) :=
  match ts with
  | Token.kw "SELECT" :: ts1 =>
    match parseRetList ts1 with
    | none => none
    | some (ret, ts2) =>
      match ts2 with
      | Token.kw "FROM" :: Token.ident tbl :: ts3 =>
        match parseWhereScalarOpt ts3 with
        | none => none
        | some (wc, ts4) =>
          match parseOrderOpt ts4 with
          | none => none
          | some (ob, ts5) =>
            match parseLockLimit ts5 with
            | none => none
            | some ((lim, lock), ts6) =>
              some ({ ret := ret, table := tbl, whereCond := wc,
                      orderBy := ob, limit := lim, locking := lock }, ts6)
      | _ => none
  | _ => none

/-- Parse the right-hand side of an UPDATE WHERE condition: a parenthesized
subquery or a scalar expression. -/
def parseWhereRhs (ts : List Token) : Option (WhereRhs × List Token) :=
  match ts with
  | Token.lparen :: ts1 =>
    match parseSelect ts1 with
    | some (q, Token.rparen :: ts2) => some (WhereRhs.sub q, ts2)
    | _ => none
  | _ =>
    match parseExpr ts with
    | some (e, ts1) => some (WhereRhs.scalar e, ts1)
    | none => none

/-- Parse a non-empty comma-separated SET assignment list. -/
def parseSetListAux : Nat → List Token → Option (List (String × Expr) × List Token)
  | 0, _ => none
  | fuel + 1, ts =>
    match parseScalarCond ts with
    | none => none
    | some (a, ts1) =>
      match ts1 with
      | Token.comma :: ts2 =>
        match parseSetListAux fuel ts2 with
        | none => none
        | some (rest, ts3) => some (a :: rest, ts3)
      | _ => some ([a], ts1)

/-- Parse an optional RETURNING clause. -/
def parseReturningOpt (ts : List Token) :
    Option (Option RetList × List Token) :=
  match ts with
  | Token.kw "RETURNING" :: ts1 =>
    match parseRetList ts1 with
    | some (r, ts2) => some (some r, ts2)
    | none => none
  | _ => some (none, ts)

/-- Parse an UPDATE statement. -/
def parseUpdate (ts : List Token) : Option (UpdateQ × List Token) :=
  match ts with
  | Token.kw "UPDATE" :: Token.ident tbl :: Token.kw "SET" :: ts1 =>
    match parseSetListAux ts1.length ts1 with
    | none => none
    | some (sets, ts2) =>
      match ts2 with
      | Token.kw "WHERE" :: Token.ident c :: Token.eq :: ts3 =>
        match parseWhereRhs ts3 with
        | none => none
        | some (rhs, ts4) =>
          match parseReturningOpt ts4 with
          | none => none
          | some (ret, ts5) =>
            some ({ table := tbl, sets := sets,
                    whereCond := some (c, rhs), returning := ret }, ts5)
      | _ =>
        match parseReturningOpt ts2 with
        | none => none
        | some (ret, ts3) =>
          some ({ table := tbl, sets := sets,
                  whereCond := none, returning := ret }, ts3)
  | _ => none

/-- Parse an INSERT statement:
`INSERT INTO table [(cols)] VALUES (row)[, (row)]* [RETURNING ret]`. -/
def parseInsert (ts : List Token) : Option (InsertQ × List Token) :=
  match ts with
  | Token.kw "INSERT" :: Token.kw "INTO" :: Token.ident tbl :: ts1 =>
    match ts1 with
    | Token.kw "VALUES" :: ts2 =>
      match parseValuesAux ts2.length ts2 with
      | none => none
      | some (vals, ts3) =>
        match parseReturningOpt ts3 with
        | none => none
        | some (ret, ts4) =>
          some ({ table := tbl, targetCols := none,
                  rowsVals := vals, returning := ret }, ts4)
    | Token.lparen :: ts2 =>
      match parseIdentListAux ts2.length ts2 with
      | some (cs, Token.rparen :: Token.kw "VALUES" :: ts3) =>
        match parseValuesAux ts3.length ts3 with
        | none => none
        | some (vals, ts4) =>
          match parseReturningOpt ts4 with
          | none => none
          | some (ret, ts5) =>
            some ({ table := tbl, targetCols := some cs,
                    rowsVals := vals, returning := ret }, ts5)
      | _ => none
    | _ => none
  | _ => none

/-- Parse a whole statement: the full token list must be consumed (a trailing
semicolon is allowed).  A statement the grammar rejects yields `none`. -/
def parseStmt (ts : List Token) : Option Stmt :=
  match ts with
  | Token.kw "INSERT" :: _ =>
    match parseInsert ts with
    | some (q, []) => some (Stmt.ins q)
    | some (q, [Token.semi]) => some (Stmt.ins q)
    | _ => none
  | Token.kw "UPDATE" :: _ =>
    match parseUpdate ts with
    | some (q, []) => some (Stmt.upd q)
    | some (q, [Token.semi]) => some (Stmt.upd q)
    | _ => none
  | _ => none

/-! ### The engine (the store's execution of parsed statements)

Executable semantics for parsed statements on the queue table.  Concurrency is
not modelled: the model describes a single transaction running against the
store, so the `FOR UPDATE SKIP LOCKED` locking clause locks against no other
lock holder and is recorded but has no effect on the rows seen. -/

/-- SQL-level errors. -/
inductive SqlError where
  | malformed
  | unknownTable (t : String)
  | unknownColumn (c : String)
  | typeMismatch (c : String)
  | columnCount
  | multiRowSubquery
deriving DecidableEq, Repr

/-- The columns of the queue table. -/
def schemaCols : List String := ["id", "status", "item", "error"]

/-- Check that an output list names only schema columns. -/
def retListOk : RetList → Bool
  | RetList.star => true
  | RetList.cols cs => cs.all (fun c => schemaCols.contains c)

/-- Evaluate a scalar condition `col = expr` on one row. -/
def evalCond (r : Row) : String × Expr → Except SqlError Bool
  | ("id", Expr.num n) => Except.ok (r.id == n)
  | ("id", _) => Except.error (SqlError.typeMismatch "id")
  | ("status", Expr.num n) => Except.ok (statusCode r.status == n)
  | ("status", _) => Except.error (SqlError.typeMismatch "status")
  | ("error", Expr.str s) => Except.ok (r.error == some s)
  | ("error", _) => Except.error (SqlError.typeMismatch "error")
  | ("item", _) => Except.error (SqlError.typeMismatch "item")
  | (c, _) => Except.error (SqlError.unknownColumn c)

/-- Filter rows by an optional condition, propagating evaluation errors. -/
def filterRows (cond : Option (String × Expr)) : List Row → Except SqlError (List Row)
  | [] => Except.ok []
  | r :: rs => do
    let keep ← match cond with
      | none => Except.ok true
      | some c => evalCond r c
    let rest ← filterRows cond rs
    pure (if keep then r :: rest else rest)

/-- Insert a row into a list sorted by id. -/
def insertById (asc : Bool) (r : Row) : List Row → List Row
  | [] => [r]
  | x :: xs =>
    if (if asc then r.id ≤ x.id else x.id ≤ r.id) then r :: x :: xs
    else x :: insertById asc r xs

/-- Sort rows by id (insertion sort). -/
def sortById (asc : Bool) : List Row → List Row
  | [] => []
  | r :: rs => insertById asc r (sortById asc rs)

/-- Execute a SELECT of the fragment, returning the selected rows.  The model
supports ordering by `id` only (the only ordering the source uses). -/
def execSelect (q : SelectQ) (db : DB) : Except SqlError (List Row) := do
  if q.table ≠ "queue" then
    Except.error (SqlError.unknownTable q.table)
  else if !retListOk q.ret then
    Except.error SqlError.columnCount
  else do
    let matched ← filterRows q.whereCond db
    let ordered ← match q.orderBy with
      | none => Except.ok matched
      | some ("id", asc) => Except.ok (sortById asc matched)
      | some (c, _) => Except.error (SqlError.unknownColumn c)
    let limited := match q.limit with
      | none => ordered
      | some n => ordered.take n
    pure limited

/-- Apply one SET assignment to a row.  Assigning a non-numeric literal to the
integer `status` column is a type mismatch (as for the in-progress string
literal of the source query, had its statement parsed). -/
def applySet (r : Row) : String × Expr → Except SqlError Row
  | ("status", Expr.num n) =>
    match statusFromCode n with
    | some st => Except.ok { r with status := st }
    | none => Except.error (SqlError.typeMismatch "status")
  | ("status", _) => Except.error (SqlError.typeMismatch "status")
  | ("error", Expr.str s) => Except.ok { r with error := some s }
  | ("error", _) => Except.error (SqlError.typeMismatch "error")
  | ("item", Expr.num n) => Except.ok { r with item := Value.num n }
  | ("item", Expr.str s) => Except.ok { r with item := Value.str s }
  | ("item", _) => Except.error (SqlError.typeMismatch "item")
  | ("id", _) => Except.error (SqlError.typeMismatch "id")
  | (c, _) => Except.error (SqlError.unknownColumn c)

/-- Apply all SET assignments to a row. -/
def applySets (r : Row) : List (String × Expr) → Except SqlError Row
  | [] => Except.ok r
  | a :: rest => do
    let r1 ← applySet r a
    applySets r1 rest

/-- Decide which row ids an UPDATE targets.  A scalar subquery yielding more
than one row is an execution error; yielding no row means no row matches. -/
def targetIds (cond : Option (String × WhereRhs)) (db : DB) :
    Except SqlError (Option (List Nat)) :=
  match cond with
  | none => Except.ok none
  | some (c, WhereRhs.scalar e) => do
    let matched ← filterRows (some (c, e)) db
    pure (some (matched.map Row.id))
  | some ("id", WhereRhs.sub s) => do
    let rows ← execSelect s db
    match rows with
    | [] => pure (some [])
    | [r0] => pure (some [r0.id])
    | _ => Except.error SqlError.multiRowSubquery
  | some (c, WhereRhs.sub _) => Except.error (SqlError.unknownColumn c)

/-- Apply the SET assignments of an UPDATE to every row a predicate hits,
returning (updated rows, new table contents). -/
def updateRows (hit : Row → Bool) (sets : List (String × Expr)) :
    List Row → Except SqlError (List Row × List Row)
  | [] => Except.ok ([], [])
  | r :: rs => do
    let (upd, rest) ← updateRows hit sets rs
    if hit r then do
      let r1 ← applySets r sets
      pure (r1 :: upd, r1 :: rest)
    else
      pure (upd, r :: rest)

/-- Execute an UPDATE, returning the updated rows (for RETURNING) and the new
table. -/
def execUpdate (q : UpdateQ) (db : DB) : Except SqlError (List Row × DB) := do
  if q.table ≠ "queue" then
    Except.error (SqlError.unknownTable q.table)
  else do
    let tgt ← targetIds q.whereCond db
    let hit : Row → Bool := fun r =>
      match tgt with
      | none => true
      | some ids => ids.contains r.id
    let (updated, db1) ← updateRows hit q.sets db
    match q.returning with
    | none => pure ([], db1)
    | some ret =>
      if retListOk ret then pure (updated, db1)
      else Except.error SqlError.columnCount

/-- Fold one VALUES row into a fresh row, column by column. -/
def buildRowAux (r : Row) : List String → List Expr → Except SqlError Row
  | [], [] => Except.ok r
  | c :: cs, v :: vs => do
    let r1 ← applySet r (c, v)
    buildRowAux r1 cs vs
  | _, _ => Except.error SqlError.columnCount

/-- Build a fresh row for an INSERT from the target column list and one VALUES
row.  Unlisted columns take their defaults: `status` defaults to 0 = Ready per
the spec (the migrations are not in the repository), `error` to null. -/
def buildRow (nid : Nat) (cols : List String) (vals : List Expr) :
    Except SqlError Row :=
  buildRowAux { id := nid, status := Status.ready, item := Value.null, error := none }
    cols vals

/-- The next auto-assigned id: one more than the largest id present. -/
def nextId (db : DB) : Nat := (db.map Row.id).foldr max 0 + 1

/-- Build one fresh row per VALUES row, assigning consecutive ids. -/
def buildRows (cols : List String) (nid : Nat) :
    List (List Expr) → Except SqlError (List Row)
  | [] => Except.ok []
  | vs :: rest => do
    let r ← buildRow nid cols vs
    let more ← buildRows cols (nid + 1) rest
    pure (r :: more)

/-- Execute an INSERT, returning the inserted rows (for RETURNING) and the new
table.  With no target column list, a VALUES row must supply every column of
the table; the source supplies one expression, a reference to the column
`item`, which is not valid in VALUES anyway. -/
def execInsert (q : InsertQ) (db : DB) : Except SqlError (List Row × DB) := do
  if q.table ≠ "queue" then
    Except.error (SqlError.unknownTable q.table)
  else do
    let cols := match q.targetCols with
      | some cs => cs
      | none => schemaCols
    let inserted ← buildRows cols (nextId db) q.rowsVals
    match q.returning with
    | none => pure ([], db ++ inserted)
    | some ret =>
      if retListOk ret then pure (inserted, db ++ inserted)
      else Except.error SqlError.columnCount

/-- Execute a parsed statement. -/
def execStmt (s : Stmt) (db : DB) : Except SqlError (List Row × DB) :=
  match s with
  | Stmt.ins q => execInsert q db
  | Stmt.upd q => execUpdate q db

/-! ### The Rust-level embedding -/

/-- Errors a queue operation can surface, modelling the `BoxDynError` values
the source can return: a serde serialization error, a SQL error from the
store, the sqlx RowNotFound error of `fetch_one` on an empty result set, the
connection-level begin/commit/rollback failures, and the handler error
propagated by the question-mark operator on the handler result. -/
inductive Error where
  | serialization (msg : String)
  | sql (e : SqlError)
  | rowNotFound
  | beginFailed
  | commitFailed
  | rollbackFailed
  | handlerFailed
deriving DecidableEq, Repr

/-- Store events, recorded in order: transaction begin, query execution,
commit, rollback (explicit, or implicit on transaction drop), and handler
invocation with its argument. -/
inductive Event where
  | beganTx
  | ranQuery (toks : List Token)
  | committed
  | rolledBack
  | calledHandler (r : Row)

/-- `query!(...).fetch_one`: parse the statement (a statement the grammar
rejects fails with a SQL error), execute it, and take exactly one result row;
an empty result set is the RowNotFound error. -/
def runFetchOne (toks : List Token) (db : DB) : Except Error (Row × DB) :=
  match parseStmt toks with
  | none => Except.error (Error.sql SqlError.malformed)
  | some s =>
    match execStmt s db with
    | Except.error e => Except.error (Error.sql e)
    | Except.ok (results, db1) =>
      match results with
      | [] => Except.error Error.rowNotFound
      | r :: _ => Except.ok (r, db1)

/-- Connection-level failure environment: whether begin, commit, or rollback
fail on this call (connection loss etc., resolved by the environment). -/
structure StoreEnv where
  beginFails : Bool
  commitFails : Bool
  rollbackFails : Bool
deriving DecidableEq, Repr

/-- `ProcessFlow`, verbatim from the source: Success, Requeue, Fail(String). -/
inductive ProcessFlow where
  | success
  | requeue
  | fail (error : String)
deriving DecidableEq, Repr

/-- The handler passed to `process`.  The source declares the handler as
`FnOnce(Value) -> Result<ProcessFlow<Value>, ()>` but invokes it as `f(row)`
on the whole row returned by `RETURNING *`; the embedding follows the call
site, so the handler receives the full row. -/
abbrev Handler := Row → Except Unit ProcessFlow

/-- Result of `process`: Ok(()), a returned error, or a panic — the
`ProcessFlow::Fail` arm of the source is `todo!()`, which panics. -/
inductive ProcResult where
  | ok
  | err (e : Error)
  | panicked
deriving DecidableEq, Repr

/-- Embeds `Queue::enqueue` (src/lib.rs): serialize the item with
`serde_json::to_value` (modelled by its result `ser`, supplied by the caller
since serde is external), begin a transaction, run the INSERT statement with
`fetch_one`, commit, and return the id of the returned row.  Every error
propagates via the question-mark operator; an uncommitted transaction is
rolled back when dropped.  Note the source never binds the serialized value
into the statement: the query string carries no parameter. -/
def enqueue (env : StoreEnv) (ser : Except String Value) (db : DB) :
    Except Error Nat × DB × List Event :=
  match ser with
  | Except.error msg => (Except.error (Error.serialization msg), db, [])
  | Except.ok _item =>
    if env.beginFails then
      (Except.error Error.beginFailed, db, [Event.beganTx])
    else
      match runFetchOne enqueueTokens db with
      | Except.error e =>
        (Except.error e, db,
         [Event.beganTx, Event.ranQuery enqueueTokens, Event.rolledBack])
      | Except.ok (row, db1) =>
        if env.commitFails then
          (Except.error Error.commitFailed, db,
           [Event.beganTx, Event.ranQuery enqueueTokens, Event.rolledBack])
        else
          (Except.ok row.id, db1,
           [Event.beganTx, Event.ranQuery enqueueTokens, Event.committed])

/-- Embeds `Queue::process` (src/lib.rs): begin a transaction, run the
claiming UPDATE statement with `fetch_one`, invoke the handler on the returned
row, then dispatch on the outcome: Success commits and returns Ok, Requeue
rolls back and returns Ok, Fail is `todo!()` (a panic; the dropped transaction
rolls back), and a handler error propagates via the question-mark operator
(the dropped transaction rolls back). -/
def process (env : StoreEnv) (f : Handler) (db : DB) :
    ProcResult × DB × List Event :=
  if env.beginFails then
    (ProcResult.err Error.beginFailed, db, [Event.beganTx])
  else
    match runFetchOne processTokens db with
    | Except.error e =>
      (ProcResult.err e, db,
       [Event.beganTx, Event.ranQuery processTokens, Event.rolledBack])
    | Except.ok (row, db1) =>
      let pre := [Event.beganTx, Event.ranQuery processTokens,
                  Event.calledHandler row]
      match f row with
      | Except.error _ =>
        (ProcResult.err Error.handlerFailed, db, pre ++ [Event.rolledBack])
      | Except.ok ProcessFlow.success =>
        if env.commitFails then
          (ProcResult.err Error.commitFailed, db, pre ++ [Event.rolledBack])
        else
          (ProcResult.ok, db1, pre ++ [Event.committed])
      | Except.ok ProcessFlow.requeue =>
        if env.rollbackFails then
          (ProcResult.err Error.rollbackFailed, db, pre ++ [Event.rolledBack])
        else
          (ProcResult.ok, db, pre ++ [Event.rolledBack])
      | Except.ok (ProcessFlow.fail _msg) =>
        (ProcResult.panicked, db, pre ++ [Event.rolledBack])

/-- True on handler-invocation events. -/
def isCalledHandler : Event → Bool
  | Event.calledHandler _ => true
  | _ => false

/-- Number of handler invocations recorded in a trace. -/
def countHandlerCalls (evs : List Event) : Nat :=
  (evs.filter isCalledHandler).length

/-- The arguments the handler was invoked with, in order. -/
def handlerCallArgs (evs : List Event) : List Row :=
  evs.foldr
    (fun e acc =>
      match e with
      | Event.calledHandler r => r :: acc
      | _ => acc)
    []

/-! ### Concrete inputs used in the theorems -/

/-- A healthy connection: begin, commit and rollback all succeed. -/
def envOk : StoreEnv :=
  { beginFails := false, commitFails := false, rollbackFails := false }

/-- A connection on which begin fails. -/
def envBeginFail : StoreEnv :=
  { beginFails := true, commitFails := false, rollbackFails := false }

/-- A Ready row with the lowest id. -/
def readyRow1 : Row :=
  { id := 1, status := Status.ready, item := Value.num 1, error := none }

/-- A second Ready row. -/
def readyRow2 : Row :=
  { id := 2, status := Status.ready, item := Value.num 2, error := none }

/-- A row in the terminal Done status. -/
def doneRow3 : Row :=
  { id := 3, status := Status.done, item := Value.num 3, error := none }

/-- A queue holding exactly one Ready row. -/
def dbOneReady : DB := [readyRow1]

/-! ### Shared lemmas: the two statements of the source are rejected by the
store, so both operations leave the table exactly as it was and never reach
the handler. -/

/-- The INSERT statement of `enqueue` is rejected by the grammar: after the
first parenthesized VALUES row, a second row must be introduced by a comma,
but the source juxtaposes `(item) (item)`. -/
theorem parseStmt_enqueueTokens : parseStmt enqueueTokens = none := rfl

/-- The claiming UPDATE statement of `process` is rejected by the grammar: in
the subquery, the WHERE clause appears after ORDER BY. -/
theorem parseStmt_processTokens : parseStmt processTokens = none := rfl

/-- Running the enqueue statement fails with the SQL error on every table. -/
theorem runFetchOne_enqueueTokens (db : DB) :
    runFetchOne enqueueTokens db = Except.error (Error.sql SqlError.malformed) := rfl

/-- Running the claiming statement fails with the SQL error on every table. -/
theorem runFetchOne_processTokens (db : DB) :
    runFetchOne processTokens db = Except.error (Error.sql SqlError.malformed) := rfl

/-- `process` never changes the table. -/
theorem process_db_unchanged (env : StoreEnv) (f : Handler) (db : DB) :
    (process env f db).2.1 = db := by
  rcases env with ⟨b, c, rb⟩
  cases b <;> rfl

/-- `enqueue` never changes the table. -/
theorem enqueue_db_unchanged (env : StoreEnv) (ser : Except String Value) (db : DB) :
    (enqueue env ser db).2.1 = db := by
  rcases env with ⟨b, c, rb⟩
  rcases ser with msg | v <;> cases b <;> rfl

/-- `process` never invokes the handler. -/
theorem process_no_handler_calls (env : StoreEnv) (f : Handler) (db : DB) :
    countHandlerCalls (process env f db).2.2 = 0 := by
  rcases env with ⟨b, c, rb⟩
  cases b <;> rfl

/-! ### The claims -/

/-- C1: Refuted on the code (code bug).  On a queue holding a single Ready
row, `process` claims nothing: the claiming statement places the subquery
WHERE filter after ORDER BY, so the store rejects it.  For every handler,
`process` returns the SQL error, the table is unchanged (no row is selected,
locked, or marked InProgress), and the trace shows begin, the rejected query,
and the rollback — no handler invocation. -/
theorem c1_claim_query_rejected (f : Handler) :
    process envOk f dbOneReady =
      (ProcResult.err (Error.sql SqlError.malformed), dbOneReady,
       [Event.beganTx, Event.ranQuery processTokens, Event.rolledBack]) := rfl

/-- C2: Refuted on the code (code bug).  With a handler answering Fail with
message boom on a queue holding one Ready row, `process` does not mark the
row Failed with that message and does not return Ok: the claiming statement
is rejected by the store, the call returns the SQL error and the table is
unchanged (the row stays Ready with a null error column).  Even on the
intended path the Fail arm of the source is an unimplemented todo, modelled
as `ProcResult.panicked`, which records nothing. -/
theorem c2_fail_outcome_not_recorded :
    process envOk (fun _ => Except.ok (ProcessFlow.fail "boom")) dbOneReady =
      (ProcResult.err (Error.sql SqlError.malformed), dbOneReady,
       [Event.beganTx, Event.ranQuery processTokens, Event.rolledBack]) ∧
    ProcResult.err (Error.sql SqlError.malformed) ≠ ProcResult.ok :=
  ⟨rfl, by decide⟩

/-- C3: Refuted on the code (code bug).  On a queue holding one Ready row,
the Requeue and handler-error cases never arise: the claiming statement is
rejected, so no row is ever claimed and the handler never runs.  The row does
stay Ready (the table is unchanged), but on both inputs the caller-visible
result is the same SQL store error — not Ok for Requeue, and not the
propagated handler error for a handler-local failure. -/
theorem c3_requeue_and_handler_error_paths :
    (process envOk (fun _ => Except.ok ProcessFlow.requeue) dbOneReady).1 =
      ProcResult.err (Error.sql SqlError.malformed) ∧
    (process envOk (fun _ => Except.error ()) dbOneReady).1 =
      ProcResult.err (Error.sql SqlError.malformed) ∧
    (process envOk (fun _ => Except.ok ProcessFlow.requeue) dbOneReady).2.1 = dbOneReady ∧
    (process envOk (fun _ => Except.error ()) dbOneReady).2.1 = dbOneReady ∧
    ProcResult.err (Error.sql SqlError.malformed) ≠ ProcResult.ok ∧
    Error.sql SqlError.malformed ≠ Error.handlerFailed :=
  ⟨rfl, rfl, rfl, rfl, by decide, by decide⟩

/-- C4: Refuted on the code (code bug).  On the empty queue `process` does
fail immediately with the transaction rolled back, but not with the
empty-queue signal: the claiming statement is rejected before the store can
report an empty result, so the error is the SQL error, distinct from the
RowNotFound signal `fetch_one` would produce for no Ready row, and identical
to the error produced when a Ready row is available. -/
theorem c4_empty_queue_not_distinguished :
    (process envOk (fun _ => Except.ok ProcessFlow.success) ([] : DB)).1 =
      ProcResult.err (Error.sql SqlError.malformed) ∧
    (process envOk (fun _ => Except.ok ProcessFlow.success) ([] : DB)).2.1 = ([] : DB) ∧
    ProcResult.err (Error.sql SqlError.malformed) ≠ ProcResult.err Error.rowNotFound ∧
    (process envOk (fun _ => Except.ok ProcessFlow.success) ([] : DB)).1 =
      (process envOk (fun _ => Except.ok ProcessFlow.success) dbOneReady).1 :=
  ⟨rfl, rfl, by decide, rfl⟩

/-- C5: Refuted on the code (code bug).  For every payload value that
serializes and every table, `enqueue` inserts nothing and returns no id: its
INSERT statement is rejected by the store (juxtaposed VALUES rows; the
serialized payload is never bound into the statement), so the call returns
the SQL error, the table is unchanged, and the transaction is rolled back. -/
theorem c5_enqueue_never_inserts (v : Value) (db : DB) :
    enqueue envOk (Except.ok v) db =
      (Except.error (Error.sql SqlError.malformed), db,
       [Event.beganTx, Event.ranQuery enqueueTokens, Event.rolledBack]) := rfl

/-- C6: Refuted on the code (code bug).  For every handler, `process` on a
queue holding one Ready row invokes the handler with no argument at all (the
claiming statement is rejected first); and when the source does invoke it, it
passes the whole row returned by RETURNING star, not the payload value (the
embedded handler type takes a `Row`, following the call site `f(row)`).  The
second conjunct records the part of the claim that does hold of the source:
the handler result type offers exactly the four outcomes error, Success,
Requeue, and Fail with a message. -/
theorem c6_handler_argument (f : Handler) :
    handlerCallArgs (process envOk f dbOneReady).2.2 = [] ∧
    (∀ hr : Except Unit ProcessFlow,
      hr = Except.error () ∨ hr = Except.ok ProcessFlow.success ∨
        hr = Except.ok ProcessFlow.requeue ∨
        ∃ s, hr = Except.ok (ProcessFlow.fail s)) := by
  refine ⟨rfl, ?_⟩
  intro hr
  rcases hr with u | pf
  · cases u
    exact Or.inl rfl
  · rcases pf with _ | _ | s
    · exact Or.inr (Or.inl rfl)
    · exact Or.inr (Or.inr (Or.inl rfl))
    · exact Or.inr (Or.inr (Or.inr ⟨s, rfl⟩))

/-- C7: Confirmed.  `enqueue` fails with a serialization error exactly when
the value cannot be encoded; when the value encodes, it fails with a store
error (the begin failure when the transaction cannot begin, otherwise the SQL
error from the failing insert — on this code the insert always fails); and in
every case no partial row is left committed: the table is unchanged. -/
theorem c7_enqueue_error_taxonomy (env : StoreEnv) (ser : Except String Value) (db : DB) :
    (enqueue env ser db).2.1 = db ∧
    (∀ msg : String, ser = Except.error msg →
      (enqueue env ser db).1 = Except.error (Error.serialization msg)) ∧
    (∀ v : Value, ser = Except.ok v →
      (enqueue env ser db).1 =
        Except.error (if env.beginFails then Error.beginFailed
                      else Error.sql SqlError.malformed)) ∧
    (∀ msg : String, (enqueue env ser db).1 = Except.error (Error.serialization msg) →
      ser = Except.error msg) := by
  rcases env with ⟨b, c, rb⟩
  rcases ser with msg | v <;> cases b <;>
    simp [enqueue, runFetchOne_enqueueTokens]

/-- Witness for C7 at concrete inputs: a failing serialization on the empty
table, and a successful serialization on the empty table. -/
theorem c7_enqueue_error_taxonomy_witness :
    (enqueue envOk (Except.error "nope") ([] : DB)).1 =
      Except.error (Error.serialization "nope") ∧
    (enqueue envOk (Except.ok (Value.num 1)) ([] : DB)).1 =
      Except.error (if envOk.beginFails then Error.beginFailed
                    else Error.sql SqlError.malformed) ∧
    (Except.error "nope" : Except String Value) = Except.error "nope" :=
  ⟨(c7_enqueue_error_taxonomy envOk (Except.error "nope") []).2.1 "nope" rfl,
   (c7_enqueue_error_taxonomy envOk (Except.ok (Value.num 1)) []).2.2.1 (Value.num 1) rfl,
   (c7_enqueue_error_taxonomy envOk (Except.error "nope") []).2.2.2 "nope" rfl⟩

/-- C8: Confirmed.  A row in a terminal status (Done or Failed) is preserved
by every `process` and every `enqueue` call: both operations leave the table
exactly as it was, so a terminal row is never re-claimed or mutated. -/
theorem c8_terminal_rows_preserved (env : StoreEnv) (f : Handler)
    (ser : Except String Value) (db : DB) (r : Row) (hmem : r ∈ db)
    (_hterm : r.status = Status.done ∨ r.status = Status.failed) :
    r ∈ (process env f db).2.1 ∧ r ∈ (enqueue env ser db).2.1 := by
  rw [process_db_unchanged, enqueue_db_unchanged]
  exact ⟨hmem, hmem⟩

/-- Witness for C8: a Done row on a one-row table survives a `process` call
with an always-Success handler and an `enqueue` call. -/
theorem c8_terminal_rows_preserved_witness :
    doneRow3 ∈ (process envOk (fun _ => Except.ok ProcessFlow.success) [doneRow3]).2.1 ∧
    doneRow3 ∈ (enqueue envOk (Except.ok (Value.num 2)) [doneRow3]).2.1 :=
  c8_terminal_rows_preserved envOk (fun _ => Except.ok ProcessFlow.success)
    (Except.ok (Value.num 2)) [doneRow3] doneRow3
    (List.mem_singleton.mpr rfl) (Or.inl rfl)

/-- C9: Confirmed.  For every environment, handler and table, `process`
invokes the handler at most once; and on the no-Ready-row path as well as on
a begin failure the handler is never invoked.  (On this code the handler is
in fact never invoked on any path, because the claiming statement is
rejected before the handler could run.) -/
theorem c9_handler_at_most_once (env : StoreEnv) (f : Handler) (db : DB) :
    countHandlerCalls (process env f db).2.2 ≤ 1 ∧
    (db.all (fun r => !isReady r) = true →
      countHandlerCalls (process env f db).2.2 = 0) ∧
    (env.beginFails = true → countHandlerCalls (process env f db).2.2 = 0) := by
  have h := process_no_handler_calls env f db
  exact ⟨by rw [h]; exact Nat.zero_le 1, fun _ => h, fun _ => h⟩

/-- Witness for C9: the empty table (no Ready row) on a healthy connection,
and the empty table on a connection whose begin fails. -/
theorem c9_handler_at_most_once_witness :
    countHandlerCalls
      (process envOk (fun _ => Except.ok ProcessFlow.success) ([] : DB)).2.2 = 0 ∧
    countHandlerCalls
      (process envBeginFail (fun _ => Except.ok ProcessFlow.success) ([] : DB)).2.2 = 0 :=
  ⟨(c9_handler_at_most_once envOk (fun _ => Except.ok ProcessFlow.success) []).2.1 rfl,
   (c9_handler_at_most_once envBeginFail (fun _ => Except.ok ProcessFlow.success) []).2.2 rfl⟩

/-- C10: Confirmed.  Serialization happens before the transaction is opened:
for every environment and table, when serialization fails `enqueue` returns
the serialization error with the table unchanged and an empty store trace —
no begin, no query, no commit, no rollback. -/
theorem c10_serialization_precedes_store (env : StoreEnv) (db : DB) (msg : String) :
    enqueue env (Except.error msg) db =
      (Except.error (Error.serialization msg), db, ([] : List Event)) := rfl

/-! ### Engine sanity: the rejection of the two source statements is specific
to their malformations.  The corrected statements of spec section 9 parse,
and the engine gives them the intended semantics. -/

/-- The corrected claiming statement: the subquery filter precedes the
ordering clause, and the status literal is the numeric InProgress code. -/
def correctedProcessTokens : List Token :=
  [Token.kw "UPDATE", Token.ident "queue", Token.kw "SET",
   Token.ident "status", Token.eq, Token.numLit 1,
   Token.kw "WHERE", Token.ident "id", Token.eq, Token.lparen,
   Token.kw "SELECT", Token.ident "id",
   Token.kw "FROM", Token.ident "queue",
   Token.kw "WHERE", Token.ident "status", Token.eq, Token.numLit 0,
   Token.kw "ORDER", Token.kw "BY", Token.ident "id", Token.kw "ASC",
   Token.kw "FOR", Token.kw "UPDATE", Token.kw "SKIP", Token.kw "LOCKED",
   Token.kw "LIMIT", Token.numLit 1,
   Token.rparen, Token.kw "RETURNING", Token.star, Token.semi]

/-- The claiming statement with only the clause order repaired, keeping the
string status literal of the source. -/
def reorderedProcessTokens : List Token :=
  [Token.kw "UPDATE", Token.ident "queue", Token.kw "SET",
   Token.ident "status", Token.eq, Token.strLit "in-progress",
   Token.kw "WHERE", Token.ident "id", Token.eq, Token.lparen,
   Token.kw "SELECT", Token.ident "id",
   Token.kw "FROM", Token.ident "queue",
   Token.kw "WHERE", Token.ident "status", Token.eq, Token.numLit 0,
   Token.kw "ORDER", Token.kw "BY", Token.ident "id", Token.kw "ASC",
   Token.kw "FOR", Token.kw "UPDATE", Token.kw "SKIP", Token.kw "LOCKED",
   Token.kw "LIMIT", Token.numLit 1,
   Token.rparen, Token.kw "RETURNING", Token.star, Token.semi]

/-- The corrected insert statement: one target column, one VALUES row. -/
def correctedEnqueueTokens : List Token :=
  [Token.kw "INSERT", Token.kw "INTO", Token.ident "queue",
   Token.lparen, Token.ident "item", Token.rparen,
   Token.kw "VALUES", Token.lparen, Token.numLit 7, Token.rparen,
   Token.kw "RETURNING", Token.ident "id"]

/-- The corrected claiming statement is accepted by the grammar. -/
theorem correctedProcess_parses : (parseStmt correctedProcessTokens).isSome = true := rfl

/-- The corrected claiming statement claims the lowest-id Ready row and marks
it InProgress: on a table holding Ready rows with ids 2 and 1 and a Done row
with id 3, it returns row 1 in status InProgress. -/
theorem correctedProcess_claims_lowest_ready :
    (runFetchOne correctedProcessTokens [readyRow2, readyRow1, doneRow3]).toOption.map
      (fun p => (p.1.id, p.1.status)) = some (1, Status.inProgress) := rfl

/-- With the corrected claiming statement, the empty table yields the
RowNotFound signal of `fetch_one` — the empty-queue signal of the spec. -/
theorem correctedProcess_empty_queue :
    runFetchOne correctedProcessTokens [] = Except.error Error.rowNotFound := rfl

/-- Repairing only the clause order is not enough: the string status literal
of the source fails against the integer status column at execution. -/
theorem reorderedProcess_status_type_mismatch :
    runFetchOne reorderedProcessTokens dbOneReady =
      Except.error (Error.sql (SqlError.typeMismatch "status")) := rfl

/-- The corrected insert statement appends one fresh Ready row and returns
its id. -/
theorem correctedEnqueue_inserts_ready :
    (runFetchOne correctedEnqueueTokens [readyRow1]).toOption.map
      (fun p => (p.1.id, p.1.status)) = some (2, Status.ready) := rfl

end PgQueue
